import Mathlib

/-!
Shallow embedding of the QPay payment-processor adapter and its view layer
(files `ecommerce/extensions/payment/processors/qpay.py` and
`ecommerce/extensions/payment/views/qpay.py`).

Gateway JSON bodies are modelled by the inductive `JVal`; Python dict
subscripting that can raise `KeyError` is modelled by `jindex` returning
`Except PyExc`.  The outbound HTTP calls (token fetch, invoice create,
refund, status check) are external collaborators: their decoded response
bodies enter the model as explicit parameters, and the response-processing
logic of the adapter is embedded faithfully.  The audit recorder
(`record_processor_response`, a framework method not defined in this
repository) is modelled by an explicit log of successfully written entries,
together with a flag saying whether the write raises; the adapter functions
return the outcome paired with the list of entries actually written.
-/

/-- A JSON value as decoded from a gateway response body. -/
inductive JVal where
  | str (s : String)
  | num (n : Int)
  | arr (l : List JVal)
  | obj (l : List (String × JVal))

/-- Python `d.get(k)`: first binding of key `k` in an object, `none` otherwise. -/
def jget (j : JVal) (k : String) : Option JVal :=
  match j with
  | .obj l => (l.find? (fun p => p.1 == k)).map Prod.snd
  | _ => none

/-- Python `v == "s"` for a JSON value: true exactly when `v` is that string. -/
def jstrEq (v : JVal) (s : String) : Bool :=
  match v with
  | .str t => t == s
  | _ => false

/-- Python `d.get(k) == "s"` (a missing key compares unequal). -/
def jgetStrEq (j : JVal) (k s : String) : Bool :=
  match jget j k with
  | some v => jstrEq v s
  | none => false

/-- The Python exceptions that the embedded code can raise. -/
inductive PyExc where
  | orderNotPaid
  | assertionErr
  | keyError (key : String)
  | typeError
  | auditError
  | gatewayErr
  deriving DecidableEq

/-- Python `d[k]`: raises `KeyError k` when the key is absent. -/
def jindex (j : JVal) (k : String) : Except PyExc JVal :=
  match jget j k with
  | some v => .ok v
  | none => .error (.keyError k)

/-- The slice of an Oscar basket that the adapter reads. -/
structure Basket where
  id : Nat
  order_number : String
  total_incl_tax : ℚ
  currency : String
  lines : Nat
  deriving DecidableEq

/-- The tuple returned by a successful `handle_processor_response`. -/
structure HandledProcessorResponse where
  transaction_id : String
  total : ℚ
  currency : String
  card_number : String
  card_type : String
  deriving DecidableEq

/-- One successfully written `record_processor_response` entry. -/
structure AuditEntry where
  response : JVal
  transaction_id : String

/-- The canonical not-paid value returned by `Qpay.check`:
Python `{'payment_status': "NOT-PAID"}`. -/
def notPaidDict : JVal := .obj [("payment_status", .str "NOT-PAID")]

/-- The body that `Qpay.check` posts to `payment/check` (the `offset` field
is serialised from the page number and page limit shown here). -/
structure CheckPayload where
  object_type : String
  object_id : String
  page_number : Nat
  page_limit : Nat
  deriving DecidableEq

/-- Request construction inside `Qpay.check`: object type INVOICE, first
page, page limit 100. -/
def check_payload (order_id : String) : CheckPayload :=
  { object_type := "INVOICE"
    object_id := order_id
    page_number := 1
    page_limit := 100 }

/-- The row scan inside `Qpay.check`:
`for i in res['rows']: if i['payment_status'] == "PAID": return i`.
A row without the key raises `KeyError`, as in Python. -/
def findPaid : List JVal → Except PyExc (Option JVal)
  | [] => .ok none
  | i :: rest =>
    match jget i "payment_status" with
    | none => .error (.keyError "payment_status")
    | some v => if jstrEq v "PAID" then .ok (some i) else findPaid rest

/-- `Qpay.check` applied to the decoded `payment/check` response body. -/
def check (res : JVal) : Except PyExc JVal :=
  if jgetStrEq res "error" "PAYMENT_NOTFOUND" then .ok notPaidDict
  else
    match jget res "rows" with
    | none => .error (.keyError "rows")
    | some (.arr l) =>
      match findPaid l with
      | .error e => .error e
      | .ok (some i) => .ok i
      | .ok none => .ok notPaidDict
    | some _ => .error .typeError

/-- `Qpay.handle_processor_response`.  `auditFails` says whether the
framework call `record_processor_response` raises; the returned list holds
the audit entries actually written.  The source records then raises on the
not-paid branch, and asserts `confirm_api_response['status'] == "succeeded"`
before recording on the paid branch. -/
def handle_processor_response (auditFails : Bool) (res : JVal)
    (payment_intent_id : String) (b : Basket) :
    Except PyExc HandledProcessorResponse × List AuditEntry :=
  match check res with
  | .error e => (.error e, [])
  | .ok c =>
    match jget c "payment_status" with
    | none => (.error (.keyError "payment_status"), [])
    | some ps =>
      if jstrEq ps "NOT-PAID" then
        if auditFails then (.error .auditError, [])
        else (.error .orderNotPaid, [⟨c, payment_intent_id⟩])
      else
        match jget c "status" with
        | none => (.error (.keyError "status"), [])
        | some s =>
          if jstrEq s "succeeded" then
            if auditFails then (.error .auditError, [])
            else
              (.ok { transaction_id := payment_intent_id
                     total := b.total_incl_tax
                     currency := b.currency
                     card_number := "Qpay"
                     card_type := payment_intent_id },
               [⟨c, payment_intent_id⟩])
          else (.error .assertionErr, [])

/-- Rounding of `Decimal.to_integral_value()` under the decimal library's
default context: round to the nearest integer, ties to the even neighbour. -/
def roundHalfEven (q : ℚ) : ℤ :=
  if q - ⌊q⌋ < 1 / 2 then ⌊q⌋
  else if 1 / 2 < q - ⌊q⌋ then ⌊q⌋ + 1
  else if ⌊q⌋ % 2 = 0 then ⌊q⌋ else ⌊q⌋ + 1

/-- `Qpay._get_basket_amount`:
`str((basket.total_incl_tax * 100).to_integral_value())`, with the basket
total held as an exact decimal (a rational), never a binary float. -/
def _get_basket_amount (b : Basket) : String :=
  toString (roundHalfEven (b.total_incl_tax * 100))

/-- The empty dict `{}` recorded by `issue_credit` when the refund call
raised. -/
def emptyDict : JVal := .obj []

/-- `Qpay.issue_credit`.  `refundResult` is the outcome of the outbound
`Qpay.refund` call (its decoded body, or the exception it raised);
`auditFails` says whether `record_processor_response` raises.  On a refund
failure the source records `{}` and then re-raises the original exception. -/
def issue_credit (auditFails : Bool) (refundResult : Except PyExc JVal)
    (order_number : String) (b : Basket) (reference_number : String) :
    Except PyExc String × List AuditEntry :=
  match refundResult with
  | .error e =>
    if auditFails then (.error .auditError, [])
    else (.error e, [⟨emptyDict, reference_number⟩])
  | .ok refund =>
    if auditFails then (.error .auditError, [])
    else (.ok reference_number, [⟨refund, reference_number⟩])

/-- The fallback object built by `Qpay.get_capture_context` for an empty
basket. -/
def default_qpay_response : JVal :=
  .obj [("invoice_id", .str ""), ("qr_code", .str ""), ("qr_link", .str "")]

/-- `Qpay.get_capture_context`.  `createResponse` is the decoded body of the
outbound `Qpay.create` call (only consulted when the basket has lines).  The
final dict literal reads `invoice_id`, `qPay_shortUrl` and `qr_image` from
whichever response object was chosen, in that order, as in the source. -/
def get_capture_context (b : Basket) (createResponse : JVal) :
    Except PyExc JVal := do
  let qpay_response ←
    if b.lines = 0 then
      pure default_qpay_response
    else do
      let _transaction_id ← jindex createResponse "invoice_id"
      pure createResponse
  let inv ← jindex qpay_response "invoice_id"
  let link ← jindex qpay_response "qPay_shortUrl"
  let qr ← jindex qpay_response "qr_image"
  pure (.obj [("invoice_id", inv), ("qpay_link", link), ("qpay_qr", qr),
              ("order_id", .str b.order_number)])

/-- One `BasketAttribute` row carrying the payment-intent-id attribute. -/
structure BARow where
  value_text : String
  basket : Basket

/-- The Django lookup errors caught by `QpayAPICheckView._get_basket`. -/
inductive LookupError where
  | multipleObjectsReturned
  | objectDoesNotExist
  deriving DecidableEq

/-- `BasketAttribute.objects.get(attribute_type=…, value_text=pid)`: the
unique matching row, or `MultipleObjectsReturned` / `ObjectDoesNotExist`. -/
def attribute_get (db : List BARow) (pid : String) : Except LookupError Basket :=
  match db.filter (fun r => r.value_text == pid) with
  | [] => .error .objectDoesNotExist
  | [r] => .ok r.basket
  | _ :: _ :: _ => .error .multipleObjectsReturned

/-- `QpayAPICheckView._get_basket`: returns the related basket, or `None`
when the lookup raised (duplicate attribute, missing attribute, or any
other error). -/
def _get_basket (db : List BARow) (pid : String) : Option Basket :=
  match attribute_get db pid with
  | .ok b => some b
  | .error _ => none

/-- An HTTP response produced by the view layer: a `JsonResponse` with a
status code, or a `redirect` (which Django serves with status 302). -/
inductive HttpResponse where
  | json (status : Nat) (body : JVal)
  | redirect (url : String)

/-- The status code of a view-layer response; a Django `redirect` is 302. -/
def http_status : HttpResponse → Nat
  | .json s _ => s
  | .redirect _ => 302

/-- `QpayAPICheckView.qpay_error_response`. -/
def qpay_error_response : HttpResponse :=
  .json 400 (.obj [("error_code", .num 400),
                   ("user_message", .str "Төлбөр төлөгдөөгүй байна")])

/-- `QpayAPICheckView.error_page_response`. -/
def error_page_response : HttpResponse := .json 400 (.obj [])

/-- `QpayAPICheckView.receipt_page_response` (the receipt URL enters the
model as a parameter; building it is an external collaborator). -/
def receipt_page_response (receiptUrl : String) : HttpResponse :=
  .json 201 (.obj [("receipt_page_url", .str receiptUrl)])

/-- `QpayCheckView.form_valid`.  `paymentOutcome` is the outcome of
`handle_payment` (which wraps `handle_processor_response`), `orderOk`
whether `create_order` succeeded. -/
def QpayCheckView_form_valid (paymentOutcome : Except PyExc Unit)
    (orderOk : Bool) (receiptUrl : String) : HttpResponse :=
  match paymentOutcome with
  | .error _ => .json 400 (.obj [("error", .str "Төлбөр төлөгдөөгүй байна")])
  | .ok _ =>
    if orderOk then .json 201 (.obj [("url", .str receiptUrl)])
    else .json 400 (.obj [])

/-- `QpayAPICheckView.get`.  The basket is looked up by the query
parameter's payment intent id; `paymentOutcome` is the outcome of
`handle_payment`, `commitOk` whether the enclosing `transaction.atomic`
block exits cleanly, `orderOk` whether `create_order` and
`handle_post_order` succeed.  The returned flag records whether
`handle_payment` was invoked. -/
def QpayAPICheckView_get (db : List BARow) (pid : String)
    (paymentOutcome : Except PyExc Unit) (commitOk orderOk : Bool)
    (errorUrl receiptUrl : String) : HttpResponse × Bool :=
  match _get_basket db pid with
  | none => (.redirect errorUrl, false)
  | some _ =>
    match paymentOutcome with
    | .error _ =>
      ((if commitOk then qpay_error_response else error_page_response), true)
    | .ok _ =>
      if !commitOk then (error_page_response, true)
      else if orderOk then (receipt_page_response receiptUrl, true)
      else (error_page_response, true)

/-! ### Concrete fixtures used by witnesses and counterexamples -/

/-- A basket with one line and total 49.99. -/
def bW : Basket :=
  { id := 1, order_number := "ORD-1", total_incl_tax := 4999/100,
    currency := "USD", lines := 1 }

/-- A basket whose total is 19.995. -/
def bAmt : Basket :=
  { id := 2, order_number := "ORD-2", total_incl_tax := 19995/1000,
    currency := "USD", lines := 1 }

/-- An empty basket (no lines). -/
def bEmpty : Basket :=
  { id := 3, order_number := "ORD-3", total_incl_tax := 0,
    currency := "USD", lines := 0 }

/-- Gateway check body signalling the invoice was not found. -/
def resNF : JVal := .obj [("error", .str "PAYMENT_NOTFOUND")]

/-- A gateway row that is PAID but whose status slot is not "succeeded". -/
def rowPending : JVal :=
  .obj [("payment_status", .str "PAID"), ("status", .str "pending")]

/-- Check body carrying only the pending PAID row. -/
def resPending : JVal := .obj [("rows", .arr [rowPending])]

/-- A gateway row that is PAID with status "succeeded". -/
def rowPaidOk : JVal :=
  .obj [("payment_status", .str "PAID"), ("status", .str "succeeded")]

/-- Check body carrying only the succeeded PAID row. -/
def resPaidOk : JVal := .obj [("rows", .arr [rowPaidOk])]

/-- Two basket-attribute rows sharing one payment intent id. -/
def dbDup : List BARow := [⟨"INV-9", bW⟩, ⟨"INV-9", bW⟩]

/-- A single basket-attribute row. -/
def dbOne : List BARow := [⟨"INV-9", bW⟩]

/-! ### Helper lemmas -/

theorem jstrEq_iff (v : JVal) (s : String) : jstrEq v s = true ↔ v = .str s := by
  cases v <;> simp [jstrEq]

theorem findPaid_some {l : List JVal} {r : JVal}
    (h : findPaid l = .ok (some r)) :
    r ∈ l ∧ jget r "payment_status" = some (.str "PAID") := by
  induction l with
  | nil => simp [findPaid] at h
  | cons i rest ih =>
    rw [findPaid] at h
    split at h
    next heq => exact absurd h (by simp)
    next v heq =>
      split at h
      next hv =>
        have hri : i = r := by simpa using h
        subst hri
        refine ⟨List.mem_cons_self _ _, ?_⟩
        rw [heq, (jstrEq_iff v "PAID").mp hv]
      next hv =>
        rcases ih h with ⟨hmem, hpaid⟩
        exact ⟨List.mem_cons_of_mem _ hmem, hpaid⟩

theorem findPaid_none {l : List JVal}
    (h : ∀ r ∈ l, ∃ v, jget r "payment_status" = some v ∧ v ≠ .str "PAID") :
    findPaid l = .ok none := by
  induction l with
  | nil => rfl
  | cons i rest ih =>
    rcases h i (List.mem_cons_self _ _) with ⟨v, hv, hne⟩
    simp only [findPaid, hv]
    rw [if_neg (fun hEq => hne ((jstrEq_iff v "PAID").mp hEq))]
    exact ih (fun r hr => h r (List.mem_cons_of_mem _ hr))

theorem findPaid_finds {l : List JVal} {r0 : JVal}
    (hall : ∀ r ∈ l, ∃ v, jget r "payment_status" = some v)
    (hmem : r0 ∈ l) (hpaid : jget r0 "payment_status" = some (.str "PAID")) :
    ∃ r, findPaid l = .ok (some r) := by
  induction l with
  | nil => cases hmem
  | cons i rest ih =>
    rcases hall i (List.mem_cons_self _ _) with ⟨v, hv⟩
    by_cases hvp : jstrEq v "PAID"
    · exact ⟨i, by simp only [findPaid, hv]; rw [if_pos hvp]⟩
    · rcases List.mem_cons.mp hmem with hri | hrest
      · subst hri
        rw [hpaid] at hv
        have hvP : v = .str "PAID" := by simpa using hv.symm
        exact absurd ((jstrEq_iff v "PAID").mpr hvP) hvp
      · rcases ih (fun r hr => hall r (List.mem_cons_of_mem _ hr)) hrest with ⟨r, hr⟩
        exact ⟨r, by simp only [findPaid, hv]; rw [if_neg hvp, hr]⟩

theorem check_ok_inv {res c : JVal} (h : check res = .ok c) :
    c = notPaidDict ∨
      ∃ l, jget res "rows" = some (.arr l) ∧ c ∈ l ∧
        jget c "payment_status" = some (.str "PAID") := by
  rw [check] at h
  split at h
  · exact Or.inl (by simpa using h.symm)
  · split at h
    next heq => exact absurd h (by simp)
    next l heq =>
      split at h
      next e hfp => exact absurd h (by simp)
      next i hfp =>
        have hci : c = i := by simpa using h.symm
        subst hci
        rcases findPaid_some hfp with ⟨hmem, hpaid⟩
        exact Or.inr ⟨l, heq, hmem, hpaid⟩
      next hfp => exact Or.inl (by simpa using h.symm)
    next j hne heq => exact absurd h (by simp)

theorem jget_notPaid : jget notPaidDict "payment_status" = some (.str "NOT-PAID") := rfl

theorem handle_notPaid {res c : JVal} (auditFails : Bool) (pid : String) (b : Basket)
    (hc : check res = .ok c)
    (hnp : jget c "payment_status" = some (.str "NOT-PAID")) :
    handle_processor_response auditFails res pid b =
      if auditFails then (.error .auditError, [])
      else (.error .orderNotPaid, [⟨c, pid⟩]) := by
  simp [handle_processor_response, hc, hnp, jstrEq]

theorem handle_ok_inv {res : JVal} {pid : String} {b : Basket}
    {r : HandledProcessorResponse}
    (h : (handle_processor_response false res pid b).1 = .ok r) :
    ∃ c, check res = .ok c ∧ jget c "payment_status" = some (.str "PAID") ∧
      jget c "status" = some (.str "succeeded") ∧
      (handle_processor_response false res pid b).2 = [⟨c, pid⟩] := by
  rcases hc : check res with e | c
  · simp [handle_processor_response, hc] at h
  · refine ⟨c, rfl, ?_⟩
    rcases hps : jget c "payment_status" with _ | ps
    · simp [handle_processor_response, hc, hps] at h
    · by_cases hnp : jstrEq ps "NOT-PAID"
      · simp [handle_processor_response, hc, hps, hnp] at h
      · simp only [Bool.not_eq_true] at hnp
        have hpaid : jget c "payment_status" = some (.str "PAID") := by
          rcases check_ok_inv hc with hcnp | ⟨l, _, _, hp⟩
          · subst hcnp
            rw [jget_notPaid] at hps
            have : ps = .str "NOT-PAID" := by simpa using hps.symm
            subst this
            simp [jstrEq] at hnp
          · exact hp
        rcases hst : jget c "status" with _ | s
        · simp [handle_processor_response, hc, hps, hnp, hst] at h
        · by_cases hsu : jstrEq s "succeeded"
          · have hsv : s = .str "succeeded" := (jstrEq_iff s "succeeded").mp hsu
            subst hsv
            refine ⟨hps.symm.trans hpaid, rfl, ?_⟩
            simp [handle_processor_response, hc, hps, hnp, hst, hsu]
          · simp only [Bool.not_eq_true] at hsu
            simp [handle_processor_response, hc, hps, hnp, hst, hsu] at h

theorem handle_assert_snd {res : JVal} {pid : String} {b : Basket}
    (h : (handle_processor_response false res pid b).1 = .error .assertionErr) :
    (handle_processor_response false res pid b).2 = [] := by
  rcases hc : check res with e | c
  · simp [handle_processor_response, hc]
  · rcases hps : jget c "payment_status" with _ | ps
    · simp [handle_processor_response, hc, hps]
    · by_cases hnp : jstrEq ps "NOT-PAID"
      · simp [handle_processor_response, hc, hps, hnp] at h
      · simp only [Bool.not_eq_true] at hnp
        rcases hst : jget c "status" with _ | s
        · simp [handle_processor_response, hc, hps, hnp, hst]
        · by_cases hsu : jstrEq s "succeeded"
          · simp [handle_processor_response, hc, hps, hnp, hst, hsu] at h
          · simp only [Bool.not_eq_true] at hsu
            simp [handle_processor_response, hc, hps, hnp, hst, hsu]

theorem handle_assert_of_bad_status {res c : JVal} {s : JVal} (pid : String) (b : Basket)
    (hc : check res = .ok c)
    (hps : jget c "payment_status" = some (.str "PAID"))
    (hst : jget c "status" = some s) (hbad : s ≠ .str "succeeded") :
    handle_processor_response false res pid b = (.error .assertionErr, []) := by
  have hsu : jstrEq s "succeeded" = false := by
    cases s with
    | str t =>
      have ht : t ≠ "succeeded" := fun hEq => hbad (by rw [hEq])
      simp [jstrEq, ht]
    | num n => rfl
    | arr l => rfl
    | obj o => rfl
  have hpn : jstrEq (.str "PAID") "NOT-PAID" = false := rfl
  simp [handle_processor_response, hc, hps, hst, hsu, hpn]

theorem roundHalfEven_dist (q : ℚ) : |q - roundHalfEven q| ≤ 1 / 2 := by
  have h0 : (⌊q⌋ : ℚ) ≤ q := Int.floor_le q
  have h1 : q < ⌊q⌋ + 1 := Int.lt_floor_add_one q
  unfold roundHalfEven
  split_ifs with h2 h3 h4
  · rw [abs_of_nonneg (by linarith)]
    linarith
  · rw [abs_of_nonpos (by push_cast; linarith)]
    push_cast
    linarith
  · have htie : q - ⌊q⌋ = 1 / 2 := le_antisymm (not_lt.mp h3) (not_lt.mp h2)
    rw [abs_of_nonneg (by linarith)]
    linarith
  · have htie : q - ⌊q⌋ = 1 / 2 := le_antisymm (not_lt.mp h3) (not_lt.mp h2)
    rw [abs_of_nonpos (by push_cast; linarith)]
    push_cast
    linarith

theorem roundHalfEven_nearest (q : ℚ) (m : ℤ) :
    |q - roundHalfEven q| ≤ |q - m| := by
  by_cases hm : m = roundHalfEven q
  · rw [hm]
  · have hd := roundHalfEven_dist q
    have hz : (1 : ℤ) ≤ |roundHalfEven q - m| :=
      Int.one_le_abs (sub_ne_zero.mpr (fun h => hm h.symm))
    have h1 : (1 : ℚ) ≤ |(roundHalfEven q : ℚ) - (m : ℚ)| := by
      have hcast : ((|roundHalfEven q - m| : ℤ) : ℚ) = |(roundHalfEven q : ℚ) - (m : ℚ)| := by
        push_cast
        rfl
      calc (1 : ℚ) = ((1 : ℤ) : ℚ) := by norm_num
        _ ≤ ((|roundHalfEven q - m| : ℤ) : ℚ) := by exact_mod_cast hz
        _ = |(roundHalfEven q : ℚ) - (m : ℚ)| := hcast
    have htri : |(roundHalfEven q : ℚ) - (m : ℚ)| ≤
        |(roundHalfEven q : ℚ) - q| + |q - (m : ℚ)| := abs_sub_le _ q _
    have hcomm : |(roundHalfEven q : ℚ) - q| = |q - (roundHalfEven q : ℚ)| :=
      abs_sub_comm _ _
    linarith

theorem roundHalfEven_tie (q : ℚ) (h : |q - roundHalfEven q| = 1 / 2) :
    roundHalfEven q % 2 = 0 := by
  have h0 : (⌊q⌋ : ℚ) ≤ q := Int.floor_le q
  have h1 : q < ⌊q⌋ + 1 := Int.lt_floor_add_one q
  unfold roundHalfEven at h ⊢
  split_ifs at h ⊢ with h2 h3 h4
  · rw [abs_of_nonneg (by linarith)] at h
    linarith
  · rw [abs_of_nonpos (by push_cast; linarith)] at h
    push_cast at h
    linarith
  · exact h4
  · omega

theorem roundHalfEven_19995 : roundHalfEven ((19995 / 1000 : ℚ) * 100) = 2000 := by
  have hf : ⌊(19995 / 1000 : ℚ) * 100⌋ = 1999 := by norm_num
  unfold roundHalfEven
  rw [hf]
  norm_num

/-! ### Claim theorems -/

/-- C1 (amended): confirm returns a payment record only when check reports a
PAID row; when check reports NOT-PAID, confirm performs exactly one audit
write (recording the check result) and fails with OrderNotPaid; on the
successful paid path it performs exactly one audit write before returning.
A call that fails the internal consistency assertion, however, performs no
audit write, so the one-audit-write-per-call guarantee holds only for calls
that return or fail with OrderNotPaid. -/
theorem C1_confirm_audit (res : JVal) (pid : String) (b : Basket) :
    (∀ r, (handle_processor_response false res pid b).1 = .ok r →
      ∃ c, check res = .ok c ∧ jget c "payment_status" = some (.str "PAID") ∧
        (handle_processor_response false res pid b).2 = [⟨c, pid⟩]) ∧
    (∀ c, check res = .ok c → jget c "payment_status" = some (.str "NOT-PAID") →
      handle_processor_response false res pid b =
        (.error .orderNotPaid, [⟨c, pid⟩])) ∧
    ((handle_processor_response false res pid b).1 = .error .assertionErr →
      (handle_processor_response false res pid b).2 = []) := by
  refine ⟨?_, ?_, ?_⟩
  · intro r hr
    rcases handle_ok_inv hr with ⟨c, hc, hp, _, hsnd⟩
    exact ⟨c, hc, hp, hsnd⟩
  · intro c hc hnp
    have h := handle_notPaid false pid b hc hnp
    simpa using h
  · exact handle_assert_snd

/-- C1 counterexample: a check body carrying a PAID row whose status slot is
"pending" makes confirm fail the consistency assertion with zero audit
writes, refuting the clause that every call performs exactly one audit write
before its outcome is signaled. -/
theorem C1_counterexample :
    handle_processor_response false resPending "INV-1" bW =
      (.error .assertionErr, []) ∧
    (handle_processor_response false resPending "INV-1" bW).2.length ≠ 1 := by
  refine ⟨rfl, ?_⟩
  rw [show handle_processor_response false resPending "INV-1" bW =
    (Except.error PyExc.assertionErr, ([] : List AuditEntry)) from rfl]
  simp

/-- C1 witness: on a PAYMENT_NOTFOUND body confirm fails with OrderNotPaid
after exactly one audit write recording the canonical not-paid value. -/
theorem C1_witness :
    handle_processor_response false resNF "INV-1" bW =
      (.error .orderNotPaid, [⟨notPaidDict, "INV-1"⟩]) :=
  (C1_confirm_audit resNF "INV-1" bW).2.1 notPaidDict rfl rfl

/-- C2 (amended): when the check body is the PAYMENT_NOTFOUND error object,
confirm raises OrderNotPaid and the audit log receives exactly one entry,
but the recorded response is the canonical not-paid value produced by check,
not the raw gateway body. -/
theorem C2_notfound_audit (res : JVal) (pid : String) (b : Basket)
    (h : jgetStrEq res "error" "PAYMENT_NOTFOUND" = true) :
    handle_processor_response false res pid b =
      (.error .orderNotPaid, [⟨notPaidDict, pid⟩]) := by
  have hc : check res = .ok notPaidDict := by rw [check, if_pos h]
  have hh := handle_notPaid false pid b hc jget_notPaid
  simpa using hh

/-- C2 counterexample: for the raw body with error PAYMENT_NOTFOUND, the
single audit entry records the canonical not-paid value, which is not that
raw body and carries no error field at all. -/
theorem C2_counterexample :
    handle_processor_response false resNF "INV-7" bW =
      (.error .orderNotPaid, [⟨notPaidDict, "INV-7"⟩]) ∧
    notPaidDict ≠ resNF ∧
    jget notPaidDict "error" = none := by
  refine ⟨rfl, ?_, rfl⟩
  intro h
  have h2 : jget notPaidDict "error" = jget resNF "error" := by rw [h]
  rw [show jget notPaidDict "error" = none from rfl,
    show jget resNF "error" = some (.str "PAYMENT_NOTFOUND") from rfl] at h2
  exact Option.noConfusion h2

/-- C2 witness: the amended statement at the concrete PAYMENT_NOTFOUND body. -/
theorem C2_witness :
    handle_processor_response false resNF "INV-2" bW =
      (.error .orderNotPaid, [⟨notPaidDict, "INV-2"⟩]) :=
  C2_notfound_audit resNF "INV-2" bW rfl

/-- C3: when check reports a PAID row, confirm returns a payment record iff
the row's status slot reads "succeeded"; a present status slot holding any
other value makes the consistency assertion fail (modelled as
assertionErr, the GatewayInvariantViolation of the design), an absent slot
makes the key lookup fail, and in both cases confirm signals the failure
with no payment record and no audit write. -/
theorem C3_assert_guard (res : JVal) (pid : String) (b : Basket) (c : JVal)
    (hc : check res = .ok c)
    (hps : jget c "payment_status" = some (.str "PAID")) :
    ((∃ r, (handle_processor_response false res pid b).1 = .ok r) ↔
      jget c "status" = some (.str "succeeded")) ∧
    (∀ s, jget c "status" = some s → s ≠ .str "succeeded" →
      handle_processor_response false res pid b = (.error .assertionErr, [])) ∧
    (jget c "status" = none →
      handle_processor_response false res pid b =
        (.error (.keyError "status"), [])) := by
  refine ⟨⟨?_, ?_⟩, ?_, ?_⟩
  · rintro ⟨r, hr⟩
    rcases handle_ok_inv hr with ⟨c2, hc2, _, hst2, _⟩
    have hcc : c = c2 := by simpa using hc.symm.trans hc2
    rw [hcc]
    exact hst2
  · intro hst
    refine ⟨{ transaction_id := pid, total := b.total_incl_tax,
              currency := b.currency, card_number := "Qpay",
              card_type := pid }, ?_⟩
    simp [handle_processor_response, hc, hps, hst, jstrEq]
  · intro s hst hbad
    exact handle_assert_of_bad_status pid b hc hps hst hbad
  · intro hst
    simp [handle_processor_response, hc, hps, hst, jstrEq]

/-- C3 witness: the PAID-but-pending row makes confirm fail the assertion
with no audit write and no payment record. -/
theorem C3_witness :
    handle_processor_response false resPending "INV-3" bW =
      (.error .assertionErr, []) :=
  (C3_assert_guard resPending "INV-3" bW rowPending rfl rfl).2.1
    (.str "pending") rfl (by simp)

/-- C4: check posts a payload scoped to the first page only (page_number 1,
page_limit 100) for the given invoice id; it returns the canonical not-paid
value when the top-level response signals PAYMENT_NOTFOUND or when no row
of the page has payment status PAID, and when it returns anything else that
value is a row of the page whose payment status is PAID (and such a row is
returned whenever one exists). -/
theorem C4_check_scan (order_id : String) (res : JVal) :
    (check_payload order_id).page_number = 1 ∧
    (check_payload order_id).page_limit = 100 ∧
    (check_payload order_id).object_id = order_id ∧
    (jgetStrEq res "error" "PAYMENT_NOTFOUND" = true →
      check res = .ok notPaidDict) ∧
    (∀ c, check res = .ok c → c ≠ notPaidDict →
      ∃ l, jget res "rows" = some (.arr l) ∧ c ∈ l ∧
        jget c "payment_status" = some (.str "PAID")) ∧
    (∀ l, jget res "rows" = some (.arr l) →
      jgetStrEq res "error" "PAYMENT_NOTFOUND" = false →
      (∀ r ∈ l, ∃ v, jget r "payment_status" = some v ∧ v ≠ .str "PAID") →
      check res = .ok notPaidDict) ∧
    (∀ l r0, jget res "rows" = some (.arr l) →
      jgetStrEq res "error" "PAYMENT_NOTFOUND" = false →
      r0 ∈ l → jget r0 "payment_status" = some (.str "PAID") →
      (∀ r ∈ l, ∃ v, jget r "payment_status" = some v) →
      ∃ r, check res = .ok r ∧ r ∈ l ∧
        jget r "payment_status" = some (.str "PAID")) := by
  refine ⟨rfl, rfl, rfl, ?_, ?_, ?_, ?_⟩
  · intro h
    rw [check, if_pos h]
  · intro c hc hne
    rcases check_ok_inv hc with hcnp | hfound
    · exact absurd hcnp hne
    · exact hfound
  · intro l hrows herr hall
    rw [check, if_neg (by simp [herr])]
    simp only [hrows, findPaid_none hall]
  · intro l r0 hrows herr hmem hpaid hall
    rcases findPaid_finds hall hmem hpaid with ⟨r, hr⟩
    rcases findPaid_some hr with ⟨hm, hp⟩
    refine ⟨r, ?_, hm, hp⟩
    rw [check, if_neg (by simp [herr])]
    simp only [hrows, hr]

/-- C4 witness: a PAYMENT_NOTFOUND body yields the canonical not-paid value,
and a one-row page whose row is PAID is returned. -/
theorem C4_witness :
    check resNF = .ok notPaidDict ∧
    (∃ r, check resPaidOk = .ok r ∧ r ∈ [rowPaidOk] ∧
      jget r "payment_status" = some (.str "PAID")) := by
  constructor
  · exact (C4_check_scan "ORD-1" resNF).2.2.2.1 rfl
  · exact (C4_check_scan "ORD-1" resPaidOk).2.2.2.2.2.2 [rowPaidOk] rowPaidOk
      rfl rfl (by simp) rfl
      (by
        intro r hr
        have hr2 : r = rowPaidOk := by simpa using hr
        subst hr2
        exact ⟨.str "PAID", rfl⟩)

/-- C5: the basket amount is rendered deterministically by exact decimal
arithmetic: the string of the integer obtained by multiplying the amount by
100 and rounding to an integral value under the decimal library's rule
(nearest integer, ties to the even neighbour); in particular an amount of
19.995 is rendered as the string "2000". -/
theorem C5_amount_rounding (b : Basket) :
    _get_basket_amount b = toString (roundHalfEven (b.total_incl_tax * 100)) ∧
    (∀ m : ℤ,
      |b.total_incl_tax * 100 - (roundHalfEven (b.total_incl_tax * 100) : ℚ)| ≤
        |b.total_incl_tax * 100 - (m : ℚ)|) ∧
    (|b.total_incl_tax * 100 - (roundHalfEven (b.total_incl_tax * 100) : ℚ)| = 1 / 2 →
      roundHalfEven (b.total_incl_tax * 100) % 2 = 0) ∧
    (b.total_incl_tax = 19995 / 1000 → _get_basket_amount b = "2000") := by
  refine ⟨rfl, fun m => roundHalfEven_nearest _ m, roundHalfEven_tie _, ?_⟩
  intro h
  rw [show _get_basket_amount b =
    toString (roundHalfEven (b.total_incl_tax * 100)) from rfl, h,
    roundHalfEven_19995]
  rfl

/-- C5 witness: the basket whose total is 19.995 is rendered as "2000". -/
theorem C5_witness : _get_basket_amount bAmt = "2000" :=
  (C5_amount_rounding bAmt).2.2.2 rfl

/-- C6: when the refund call fails with any error, issue_credit writes
exactly one audit record whose body is the empty response, and then
re-raises the original error unchanged. -/
theorem C6_refund_failure (e : PyExc) (onum : String) (b : Basket)
    (ref : String) :
    issue_credit false (.error e) onum b ref =
      (.error e, [⟨emptyDict, ref⟩]) ∧
    (issue_credit false (.error e) onum b ref).2.length = 1 :=
  ⟨rfl, rfl⟩

/-- C7 (amended): when the audit write itself fails, its failure propagates
to the caller in place of the original outcome: the not-paid path of
confirm raises the audit error instead of OrderNotPaid, and the
failing-refund path of issue_credit raises the audit error instead of the
original refund error; no log-and-continue protection exists. -/
theorem C7_audit_failure_masks (res : JVal) (pid : String) (b : Basket)
    (c : JVal) (e : PyExc) (onum ref : String) :
    (check res = .ok c → jget c "payment_status" = some (.str "NOT-PAID") →
      handle_processor_response true res pid b = (.error .auditError, [])) ∧
    issue_credit true (.error e) onum b ref = (.error .auditError, []) := by
  refine ⟨?_, rfl⟩
  intro hc hnp
  have hh := handle_notPaid true pid b hc hnp
  simpa using hh

/-- C7 counterexample: with a failing audit write, the not-paid path of
confirm signals the audit error rather than OrderNotPaid, and the
failing-refund path of issue_credit signals the audit error rather than the
original refund error. -/
theorem C7_counterexample :
    (handle_processor_response true resNF "INV-1" bW).1 = .error .auditError ∧
    (handle_processor_response true resNF "INV-1" bW).1 ≠ .error .orderNotPaid ∧
    (handle_processor_response true resNF "INV-1" bW).2 = [] ∧
    (issue_credit true (.error .gatewayErr) "ORD-1" bW "INV-1").1 =
      .error .auditError ∧
    (issue_credit true (.error .gatewayErr) "ORD-1" bW "INV-1").1 ≠
      .error .gatewayErr := by
  refine ⟨rfl, ?_, rfl, rfl, ?_⟩
  · rw [show (handle_processor_response true resNF "INV-1" bW).1 =
      Except.error PyExc.auditError from rfl]
    simp
  · rw [show (issue_credit true (.error .gatewayErr) "ORD-1" bW "INV-1").1 =
      Except.error PyExc.auditError from rfl]
    simp

/-- C7 witness: the amended statement at the concrete PAYMENT_NOTFOUND body
with a failing audit write. -/
theorem C7_witness :
    handle_processor_response true resNF "INV-4" bW =
      (.error .auditError, []) :=
  (C7_audit_failure_masks resNF "INV-4" bW notPaidDict PyExc.gatewayErr
    "ORD-1" "R").1 rfl rfl

/-- C8: when more than one basket-attribute row shares the same payment
intent id, the lookup fails with MultipleObjectsReturned instead of being
silently resolved: _get_basket returns no basket, handle_payment is never
invoked for the callback, and the view answers with the error-signalling
redirect to the processor's error URL. -/
theorem C8_duplicate_intent (db : List BARow) (pid : String)
    (po : Except PyExc Unit) (commitOk orderOk : Bool) (eU rU : String)
    (hdup : 2 ≤ (db.filter (fun r => r.value_text == pid)).length) :
    attribute_get db pid = .error .multipleObjectsReturned ∧
    _get_basket db pid = none ∧
    QpayAPICheckView_get db pid po commitOk orderOk eU rU =
      (.redirect eU, false) := by
  have hag : attribute_get db pid = .error .multipleObjectsReturned := by
    rcases hf : db.filter (fun r => r.value_text == pid) with _ | ⟨a, t⟩
    · rw [hf] at hdup
      simp at hdup
    · rcases t with _ | ⟨c, t2⟩
      · rw [hf] at hdup
        simp at hdup
      · simp [attribute_get, hf]
  have hgb : _get_basket db pid = none := by
    simp [_get_basket, hag]
  refine ⟨hag, hgb, ?_⟩
  simp [QpayAPICheckView_get, hgb]

/-- C8 witness: two rows sharing one payment intent id give no basket and
the error redirect, without invoking handle_payment. -/
theorem C8_witness :
    attribute_get dbDup "INV-9" = .error .multipleObjectsReturned ∧
    _get_basket dbDup "INV-9" = none ∧
    QpayAPICheckView_get dbDup "INV-9" (.ok ()) true true "errU" "recU" =
      (.redirect "errU", false) :=
  C8_duplicate_intent dbDup "INV-9" (.ok ()) true true "errU" "recU"
    (by decide)

/-- C9 (amended): form_valid always answers with a JSON body of status 201
or 400, and QpayAPICheckView.get does so whenever a basket is found; but
when no basket is found, QpayAPICheckView.get answers with a redirect
(HTTP 302) to the processor's error URL, not a 201 or 400 JSON body. -/
theorem C9_status_codes (po : Except PyExc Unit) (commitOk orderOk : Bool)
    (db : List BARow) (pid eU rU : String) :
    (∃ body, QpayCheckView_form_valid po orderOk rU = .json 201 body ∨
      QpayCheckView_form_valid po orderOk rU = .json 400 body) ∧
    (_get_basket db pid ≠ none →
      ∃ body,
        (QpayAPICheckView_get db pid po commitOk orderOk eU rU).1 =
          .json 201 body ∨
        (QpayAPICheckView_get db pid po commitOk orderOk eU rU).1 =
          .json 400 body) ∧
    (_get_basket db pid = none →
      (QpayAPICheckView_get db pid po commitOk orderOk eU rU).1 =
        .redirect eU ∧
      http_status
        (QpayAPICheckView_get db pid po commitOk orderOk eU rU).1 = 302) := by
  refine ⟨?_, ?_, ?_⟩
  · rcases po with e | u
    · exact ⟨_, Or.inr rfl⟩
    · cases orderOk
      · exact ⟨_, Or.inr rfl⟩
      · exact ⟨_, Or.inl rfl⟩
  · intro hne
    rcases hgb : _get_basket db pid with _ | bb
    · exact absurd hgb hne
    · simp only [QpayAPICheckView_get, hgb]
      rcases po with e | u
      · cases commitOk
        · exact ⟨_, Or.inr rfl⟩
        · exact ⟨_, Or.inr rfl⟩
      · cases commitOk
        · exact ⟨_, Or.inr rfl⟩
        · cases orderOk
          · exact ⟨_, Or.inr rfl⟩
          · exact ⟨_, Or.inl rfl⟩
  · intro hgb
    constructor
    · simp [QpayAPICheckView_get, hgb]
    · simp [QpayAPICheckView_get, hgb, http_status]

/-- C9 counterexample: a callback whose payment intent id matches no basket
makes QpayAPICheckView.get answer with a redirect, whose status code 302 is
neither 201 nor 400, refuting the claim that no other status code is ever
produced. -/
theorem C9_counterexample :
    (QpayAPICheckView_get [] "X" (.ok ()) true true "errU" "recU").1 =
      .redirect "errU" ∧
    http_status
      (QpayAPICheckView_get [] "X" (.ok ()) true true "errU" "recU").1 =
        302 ∧
    http_status
      (QpayAPICheckView_get [] "X" (.ok ()) true true "errU" "recU").1 ≠
        201 ∧
    http_status
      (QpayAPICheckView_get [] "X" (.ok ()) true true "errU" "recU").1 ≠
        400 :=
  ⟨rfl, rfl, by decide, by decide⟩

/-- C9 witness: with a matching basket the API check view answers 201 or
400, and with no matching basket it answers the error redirect. -/
theorem C9_witness :
    (∃ body,
      (QpayAPICheckView_get dbOne "INV-9" (.ok ()) true true "errU" "recU").1 =
        .json 201 body ∨
      (QpayAPICheckView_get dbOne "INV-9" (.ok ()) true true "errU" "recU").1 =
        .json 400 body) ∧
    (QpayAPICheckView_get [] "X" (.ok ()) true true "errU" "recU").1 =
      .redirect "errU" := by
  constructor
  · exact (C9_status_codes (.ok ()) true true dbOne "INV-9" "errU" "recU").2.1
      (by decide)
  · exact ((C9_status_codes (.ok ()) true true [] "X" "errU" "recU").2.2 rfl).1

/-- C10: for an empty basket the fallback capture-context object carries
only the keys invoice_id, qr_code and qr_link, while the capture context is
built by reading qPay_shortUrl (and then qr_image) from it, so
get_capture_context on the empty-basket path always raises
KeyError "qPay_shortUrl" instead of returning a response. -/
theorem C10_empty_basket_keyerror (b : Basket) (cr : JVal)
    (h : b.lines = 0) :
    jget default_qpay_response "invoice_id" = some (.str "") ∧
    jget default_qpay_response "qr_code" = some (.str "") ∧
    jget default_qpay_response "qr_link" = some (.str "") ∧
    jget default_qpay_response "qPay_shortUrl" = none ∧
    jget default_qpay_response "qr_image" = none ∧
    get_capture_context b cr = .error (.keyError "qPay_shortUrl") := by
  refine ⟨rfl, rfl, rfl, rfl, rfl, ?_⟩
  rcases b with ⟨i, onum, tot, cur, ln⟩
  have h2 : ln = 0 := h
  subst h2
  rfl

/-- C10 witness: the concrete empty basket raises KeyError for
qPay_shortUrl. -/
theorem C10_witness :
    get_capture_context bEmpty resPaidOk =
      .error (.keyError "qPay_shortUrl") :=
  (C10_empty_basket_keyerror bEmpty resPaidOk rfl).2.2.2.2.2
